import Mathlib

/-!
Verification of the course-generation backend (`app/` package).

The definitions below are a shallow embedding of the Python sources:
  * `app/models/course.py`      — the pydantic data model,
  * `app/services/course_generator.py` — the assembly pipeline,
  * `app/services/claude_service.py`   — provider calls, parsing, fallbacks,
  * `app/services/cache_service.py`    — the Redis wrapper,
  * `app/api/courses.py`        — the HTTP handlers that gate on the cache.

Stateful code is embedded as explicit state passing: the MongoDB course
document becomes a `Course` value, a `$push` update becomes a list append,
the Redis client becomes an `Option` state, and the Anthropic client becomes
an oracle (a list of response strings, one entry consumed per API call).
Fallible code returns `Except` / `Option`.
-/

namespace P2C

/-- Model of `CourseLevel` enum (models/course.py lines 8-11). -/
inductive CourseLevel where
  | principiante
  | intermedio
  | avanzado
deriving DecidableEq, Repr

/-- Model of `CourseStatus` enum (models/course.py lines 14-17). -/
inductive CourseStatus where
  | generating
  | ready
  | error
deriving DecidableEq, Repr

/-- Model of `QuizQuestion` (models/course.py lines 20-24). -/
structure QuizQuestion where
  question : String
  options : List String
  correct_answer : Nat
  explanation : String
deriving DecidableEq, Repr

/-- Model of `PracticalExercise` (models/course.py lines 52-57). -/
structure PracticalExercise where
  title : String
  description : String
  objectives : List String
  steps : List String
deriving DecidableEq, Repr

/-- Model of `ModuleChunk` (models/course.py lines 60-78).  The `checksum` is an md5
hex digest in the source; md5 is an external primitive, threaded through the
embedding as a function argument where a chunk is built. -/
structure ModuleChunk where
  chunk_id : String
  content : String
  total_chunks : Nat
  chunk_order : Nat
  checksum : String
deriving DecidableEq, Repr

/-- The record built by the `cls(...)` call inside `create_chunk`
(models/course.py lines 72-78), before pydantic field validation. -/
def chunk_record (md5 : String → String) (content : String)
    (order : Nat) (total : Nat) (module_id : String) : ModuleChunk :=
  { chunk_id := s!"{module_id}_chunk_{order}"
    content := content
    total_chunks := total
    chunk_order := order
    checksum := md5 content }

/-- Model of `ModuleChunk.create_chunk` (models/course.py lines 68-78).  The
field declaration `content: str = Field(max_length=5000)` (line 62) is
enforced by the pydantic constructor that `create_chunk` calls, so building
a chunk whose content exceeds 5000 characters raises `ValidationError`. -/
def ModuleChunk.create_chunk (md5 : String → String) (content : String)
    (order : Nat) (total : Nat) (module_id : String) : Except String ModuleChunk :=
  if content.length ≤ 5000 then
    Except.ok (chunk_record md5 content order total module_id)
  else
    Except.error "ValidationError: content longer than max_length 5000"

/-- Model of `Module` (models/course.py lines 81-91).  The `resources` field (video /
audio enrichment, carrying a floating-point relevance score) is outside the
embedded fragment: no claim touches it and the pipeline only ever appends to
it after a module is assembled. -/
structure Module where
  module_id : String
  title : String
  description : String
  objective : String
  concepts : List String
  chunks : List ModuleChunk
  quiz : List QuizQuestion
  summary : String
  practical_exercise : PracticalExercise
deriving DecidableEq, Repr

/-- Model of `CourseMetadata` (models/course.py lines 94-103). -/
structure CourseMetadata where
  title : String
  description : String
  level : CourseLevel
  estimated_duration : Nat
  prerequisites : List String
  total_modules : Nat
  module_list : List String
  topics : List String
  total_size : String
deriving DecidableEq, Repr

/-- Model of `Course` (models/course.py lines 122-133), restricted to the fields the
pipeline reads or writes.  `modules` defaults to `[]` in the source
(`modules: List[Module] = []`). -/
structure Course where
  id : String
  metadata : CourseMetadata
  modules : List Module
  user_prompt : String
  user_level : CourseLevel
  user_interests : List String
  status : CourseStatus
deriving DecidableEq, Repr

/-- The `Course(...)` construction in `generate_course_fast_response`
(course_generator.py lines 74-82): the `modules` field is not passed, so the
pydantic default `[]` applies, and `status` is `GENERATING`. -/
def mkInitialCourse (course_id : String) (metadata : CourseMetadata)
    (prompt : String) (level : CourseLevel) (interests : List String) : Course :=
  { id := course_id
    metadata := metadata
    modules := []
    user_prompt := prompt
    user_level := level
    user_interests := interests
    status := CourseStatus.generating }

/-! ### C1 — module persistence

`_save_module_to_course` (course_generator.py lines 442-451) runs
`update_one({"_id": course_id}, {"$push": {"modules": module.dict()}})`:
a MongoDB `$push`, i.e. an append to the end of the `modules` array.  No
code path writes `modules.<i>` by index and no code path sizes the array at
creation.  Concurrent `$push` updates on one document are serialized by the
database, so a set of workers finishing in some order produces the same
array as folding the appends in that completion order. -/

/-- Model of `_save_module_to_course`, the effect on the `modules` array. -/
def save_module_to_course (modules : List Module) (m : Module) : List Module :=
  modules ++ [m]

/-- The `modules` array after the workers listed in `completionOrder` (worker
indices, in the order their `_save_module_to_course` writes land) have each
appended their module to `initialModules`. -/
def runWorkers (initialModules : List Module) (completionOrder : List Nat)
    (producedBy : Nat → Module) : List Module :=
  completionOrder.foldl (fun ms i => save_module_to_course ms (producedBy i)) initialModules

/-- Two-module course metadata used as a concrete input. -/
def exMetadata2 : CourseMetadata :=
  { title := "Curso de Ejemplo"
    description := "Curso de ejemplo con dos modulos para los contraejemplos."
    level := CourseLevel.principiante
    estimated_duration := 8
    prerequisites := []
    total_modules := 2
    module_list := ["Modulo A", "Modulo B"]
    topics := []
    total_size := "~300KB" }

/-- A concrete practical exercise. -/
def exExercise : PracticalExercise :=
  { title := "Ejercicio", description := "Descripcion", objectives := [], steps := [] }

/-- The module produced by worker `i` (module_id follows the
`modulo_<index+1>` convention of the source). -/
def exModule (i : Nat) : Module :=
  { module_id := s!"modulo_{i + 1}"
    title := s!"Modulo {i + 1}"
    description := "Descripcion del modulo"
    objective := "Objetivo"
    concepts := []
    chunks := []
    quiz := []
    summary := "Resumen"
    practical_exercise := exExercise }

/-- A freshly created course over `exMetadata2`. -/
def exInitialCourse : Course :=
  mkInitialCourse "curso-1" exMetadata2 "aprender" CourseLevel.principiante []

/-- C1, counterexample: the course document is created with an **empty**
`modules` array (not one slot per `metadata.module_list` entry), and module
writes are `$push` appends, so with completion order worker 1 before
worker 0 the final array holds worker 1's module at index 0. -/
theorem slot_isolation_counterexample :
    exInitialCourse.modules.length ≠ exMetadata2.module_list.length
    ∧ (runWorkers exInitialCourse.modules [1, 0] exModule).get? 0 ≠ some (exModule 0)
    ∧ (runWorkers exInitialCourse.modules [1, 0] exModule).get? 0 = some (exModule 1) := by
  refine ⟨by decide, by decide, by decide⟩

/-- C1, amended: the `modules` array starts empty and each completed module
is appended by `$push`; the final array is exactly the initial array followed
by the workers' modules **in completion order** (so a module lands at the
slot matching its declared index only when completions happen in index
order). -/
theorem modules_are_appended_in_completion_order
    (initialModules : List Module) (completionOrder : List Nat)
    (producedBy : Nat → Module) :
    runWorkers initialModules completionOrder producedBy
      = initialModules ++ completionOrder.map producedBy := by
  induction completionOrder generalizing initialModules with
  | nil => simp [runWorkers]
  | cons i rest ih =>
      have h := ih (save_module_to_course initialModules (producedBy i))
      simp only [runWorkers, List.foldl_cons] at h ⊢
      rw [h]
      simp [save_module_to_course]

/-! ### C3 — status update after the background gather

`generate_remaining_modules_background` (course_generator.py lines 601-621)
runs `asyncio.gather(*tasks, return_exceptions=True)` and counts
`successful_modules = sum(1 for result in results if not isinstance(result,
Exception))` (line 604).  But every task is
`_generate_single_module_with_semaphore` (lines 628-726), whose entire body
sits in a `try` whose `except Exception` handler logs, writes a `failed`
progress marker and **returns `None`** (lines 717-726).  A failed module
generation therefore contributes a `None` entry to the gather results, not
an exception, and `None` is not an `Exception` instance — so
`successful_modules` always equals `len(tasks)`, the guard
`if successful_modules == len(tasks)` (line 610) is always true, and the
update `$set {status: ready, all_modules_ready: true}` runs no matter how
many modules actually failed.  No branch after the gather sets
`status = error` or stores an error message. -/

/-- One entry of the `asyncio.gather(..., return_exceptions=True)` result
list: either the value the task returned, or an exception the task raised
(which `return_exceptions=True` would place in the list instead of
propagating). -/
inductive GatherEntry where
  | value (returned : Option Module)
  | exc
deriving DecidableEq, Repr

/-- Model of `_generate_single_module_with_semaphore` (lines 628-726) as seen
by the gather.  `generation` is what the 3-phase body produced: `some m` on
success, `none` when the body raised.  The `except Exception` handler
(lines 717-726) catches every failure and returns `None`, so the task never
hands an exception entry to the gather. -/
def generate_single_module_with_semaphore (generation : Option Module) : GatherEntry :=
  match generation with
  | some m => GatherEntry.value (some m)
  | none => GatherEntry.value none

/-- Model of `isinstance(result, Exception)` on a gather entry. -/
def isExceptionEntry : GatherEntry → Bool
  | GatherEntry.exc => true
  | GatherEntry.value _ => false

/-- Model of `successful_modules = sum(1 for result in results if not
isinstance(result, Exception))` (line 604). -/
def successful_modules (results : List GatherEntry) : Nat :=
  (results.filter (fun r => !(isExceptionEntry r))).length

/-- The post-gather database update (lines 610-615): executed only when
`successful_modules == len(tasks)`.  `none` means no update was executed
(the document keeps its previous status and no error message is written);
`some (st, amr)` means `$set {status: st, all_modules_ready: amr}`. -/
def backgroundGatherStatusUpdate (results : List GatherEntry) : Option (CourseStatus × Bool) :=
  if successful_modules results = results.length then some (CourseStatus.ready, true) else none

/-- C3, counterexample: a background run in which **both** module
generations fail (each task body raises; the wrapper catches and returns
`None`) still executes the update that sets `status = ready` with
`all_modules_ready = true` — the claim requires `error` with a recorded
message when no module succeeded, and `ready` only when at least one did. -/
theorem gather_ready_despite_total_failure :
    (∀ o ∈ ([none, none] : List (Option Module)), o = none)
    ∧ backgroundGatherStatusUpdate
        (([none, none] : List (Option Module)).map generate_single_module_with_semaphore)
      = some (CourseStatus.ready, true) := by
  refine ⟨by decide, by decide⟩

/-- C3, amended: because the per-module wrapper catches every exception and
returns `None`, and `None` fails the `isinstance(Exception)` test, the
gather result list never contains an exception entry: `successful_modules`
always equals the task count, so after **every** background gather the
course is marked `ready` (with `all_modules_ready`) regardless of how many
module generations actually succeeded, and no error status or message is
ever recorded on this path. -/
theorem gather_always_marks_ready (generations : List (Option Module)) :
    backgroundGatherStatusUpdate (generations.map generate_single_module_with_semaphore)
      = some (CourseStatus.ready, true) := by
  have hfilter : (generations.map generate_single_module_with_semaphore).filter
        (fun r => !(isExceptionEntry r))
      = generations.map generate_single_module_with_semaphore := by
    apply List.filter_eq_self.mpr
    intro r hr
    rcases List.mem_map.mp hr with ⟨o, _, rfl⟩
    cases o <;> rfl
  simp [backgroundGatherStatusUpdate, successful_modules, hfilter]

/-! ### C8 — read cache population in `get_course`

`get_course` (course_generator.py lines 198-223): cache hit returns the
cached course; on a miss the course is read from the database and, when
found, `cache_course(course_id, course.dict())` is called **unconditionally**
(line 216) — there is no check of `course.status` before caching. -/

/-- Model of `get_course`, state-passing form.  `cached` is the cache entry for this
course id before the call, `db` the database document; the second component
of the result is the cache entry after the call. -/
def get_course (cached : Option Course) (db : Option Course) :
    Option Course × Option Course :=
  match cached with
  | some c => (some c, some c)
  | none =>
      match db with
      | some c => (some c, some c)
      | none => (none, none)

/-- C8, counterexample: a cache-miss read of a course whose stored status is
`generating` **does** write the fetched snapshot into the cache. -/
theorem get_course_caches_generating_counterexample :
    exInitialCourse.status = CourseStatus.generating
    ∧ (get_course none (some exInitialCourse)).2 = some exInitialCourse := by
  refine ⟨by decide, by decide⟩

/-- C8, amended: `get_course` populates the cache on **every** cache-miss
read that finds the course, regardless of the stored status (`generating`,
`error` and `ready` alike); a hit leaves the entry in place and a miss on a
missing course caches nothing. -/
theorem get_course_always_populates_cache (c : Course) (db : Option Course) :
    get_course (some c) db = (some c, some c)
    ∧ get_course none (some c) = (some c, some c)
    ∧ get_course none none = (none, none) := by
  refine ⟨rfl, rfl, rfl⟩

/-! ### C2 — which module indices the background tasks generate

Two distinct pieces of code generate modules in the background:

* `_generate_course_content_async` (course_generator.py lines 110-196) —
  the task detached by `generate_course_fast_response` via
  `asyncio.create_task` (line 91).  After generating the introduction it
  generates **only** `module_list[0]` (lines 131-181, guarded by
  `if course.metadata.module_list:`), with no semaphore, then marks the
  course ready.

* `generate_remaining_modules_background` (lines 562-626) — triggered by the
  separate `/start-course` endpoint.  It builds one task per index in
  `range(current_modules, total_modules)` (line 594), each wrapped in
  `_generate_single_module_with_semaphore` which enters a single
  `asyncio.Semaphore(3)` created at line 591 and shared by all tasks of the
  run. -/

/-- The module indices generated by the detached task
`_generate_course_content_async`. -/
def detachedTaskModuleIndices (module_list : List String) : List Nat :=
  if module_list.isEmpty then [] else [0]

/-- One admission-gated module-generation task of
`generate_remaining_modules_background`. -/
structure GatedModuleTask where
  module_index : Nat
  semaphore_capacity : Nat
deriving DecidableEq, Repr

/-- The task list built by `generate_remaining_modules_background`
(lines 591-598): `for module_index in range(current_modules, total_modules)`,
each task admitted through the shared `asyncio.Semaphore(3)`. -/
def remainingModuleTasks (current_modules total_modules : Nat) : List GatedModuleTask :=
  (List.range' current_modules (total_modules - current_modules)).map
    (fun i => { module_index := i, semaphore_capacity := 3 })

/-- C2, counterexample: for a course with `total_modules = 3` the detached
background task generates only module index 0, not every index in
`[0, total_modules)`. -/
theorem detached_task_generates_only_first_module :
    detachedTaskModuleIndices ["Modulo A", "Modulo B", "Modulo C"] ≠ List.range 3
    ∧ detachedTaskModuleIndices ["Modulo A", "Modulo B", "Modulo C"] = [0] := by
  refine ⟨by decide, by decide⟩

/-- C2, amended: the detached task generates only module index 0 (and uses
no semaphore); the remaining indices are generated by the separately
triggered `/start-course` background run, whose tasks each pass through a
shared counting semaphore of capacity 3.  Started after the first module is
persisted (`current_modules = 1`), that run covers exactly the indices
`[1, total_modules)`, so together the two paths cover `[0, total_modules)`. -/
theorem detached_and_start_course_tasks_cover_all_indices
    (module_list : List String) (h : module_list ≠ []) :
    detachedTaskModuleIndices module_list
        ++ (remainingModuleTasks 1 module_list.length).map GatedModuleTask.module_index
      = List.range module_list.length
    ∧ ∀ t ∈ remainingModuleTasks 1 module_list.length, t.semaphore_capacity = 3 := by
  constructor
  · obtain ⟨a, tl, rfl⟩ := List.exists_cons_of_ne_nil h
    simp only [detachedTaskModuleIndices, List.isEmpty_cons, remainingModuleTasks,
      List.map_map]
    have hmap : (GatedModuleTask.module_index ∘ fun i =>
        (⟨i, 3⟩ : GatedModuleTask)) = fun i => i := rfl
    rw [hmap, List.map_id', List.range_eq_range']
    simp only [List.length_cons, Nat.add_sub_cancel]
    rfl
  · intro t ht
    simp only [remainingModuleTasks, List.mem_map] at ht
    obtain ⟨i, _, rfl⟩ := ht
    rfl

/-- C2, witness for the amended theorem at a concrete three-module course. -/
theorem detached_and_start_course_cover_witness :
    (["Modulo A", "Modulo B", "Modulo C"] : List String) ≠ []
    ∧ (detachedTaskModuleIndices ["Modulo A", "Modulo B", "Modulo C"]
          ++ (remainingModuleTasks 1 (["Modulo A", "Modulo B", "Modulo C"] : List String).length).map
              GatedModuleTask.module_index
        = List.range (["Modulo A", "Modulo B", "Modulo C"] : List String).length
      ∧ ∀ t ∈ remainingModuleTasks 1 (["Modulo A", "Modulo B", "Modulo C"] : List String).length,
          t.semaphore_capacity = 3) := by
  exact ⟨by decide, detached_and_start_course_tasks_cover_all_indices
    ["Modulo A", "Modulo B", "Modulo C"] (by decide)⟩

/-! ### C4 — the fast-path response construction

`CourseGenerationResponse` (models/course.py lines 184-191) declares
`modules_metadata: List[ModuleMetadata]` without a default value, so pydantic
treats it as a **required** field.  `generate_course_fast_response`
(course_generator.py lines 99-104) constructs
`CourseGenerationResponse(course_id=…, metadata=…, status=…,
introduction_ready=True)` — `modules_metadata` is never passed, so the
construction raises `ValidationError` on every call; the surrounding
`except` re-raises (line 108) and the `/generate` endpoint maps it to
HTTP 500.  The repo's own scripts (test_short_prompts.py, test_api.py)
expect HTTP 200 with a `course_id` from this endpoint. -/

/-- Model of `ModuleMetadata` (models/course.py lines 174-181). -/
structure ModuleMetadata where
  module_id : String
  title : String
  description : String
  objective : String
  estimated_duration : Nat
  total_concepts : Nat
deriving DecidableEq, Repr

/-- Model of `CourseGenerationResponse` (models/course.py lines 184-191). -/
structure CourseGenerationResponse where
  course_id : String
  metadata : CourseMetadata
  modules_metadata : List ModuleMetadata
  status : CourseStatus
  introduction_ready : Bool
  generation_started : Bool
  estimated_completion_time : Nat
deriving DecidableEq, Repr

/-- The keyword arguments of a `CourseGenerationResponse(...)` call;
`none` models a keyword that is not passed. -/
structure ResponseKwargs where
  course_id : Option String
  metadata : Option CourseMetadata
  modules_metadata : Option (List ModuleMetadata)
  status : Option CourseStatus
  introduction_ready : Option Bool
  generation_started : Option Bool
  estimated_completion_time : Option Nat

/-- pydantic validation of a `CourseGenerationResponse(...)` call: the four
fields declared without defaults (`course_id`, `metadata`,
`modules_metadata`, `status`) are required; the rest fall back to their
declared defaults (`True`, `True`, `10`). -/
def validateCourseGenerationResponse (k : ResponseKwargs) :
    Except String CourseGenerationResponse :=
  match k.course_id, k.metadata, k.modules_metadata, k.status with
  | some cid, some md, some mm, some st =>
      Except.ok
        { course_id := cid
          metadata := md
          modules_metadata := mm
          status := st
          introduction_ready := k.introduction_ready.getD true
          generation_started := k.generation_started.getD true
          estimated_completion_time := k.estimated_completion_time.getD 10 }
  | _, _, _, _ => Except.error "ValidationError: modules_metadata field required"

/-- The response-construction tail of `generate_course_fast_response`
(course_generator.py lines 99-104).  `metadata` is whichever metadata the
earlier part of the function obtained — cached, provider-generated, or the
locally synthesized fallback; the construction is the same in every case and
omits `modules_metadata`. -/
def generate_course_fast_response (course_id : String) (metadata : CourseMetadata) :
    Except String CourseGenerationResponse :=
  validateCourseGenerationResponse
    { course_id := some course_id
      metadata := some metadata
      modules_metadata := none
      status := some CourseStatus.generating
      introduction_ready := some true
      generation_started := none
      estimated_completion_time := none }

/-- C4: for every course id and every metadata object (including the
locally synthesized fallback substituted on a Content Provider failure) the
fast-path response construction raises a pydantic validation error, because
the required `modules_metadata` field is never passed — so the fast path
never returns a usable response to the caller. -/
theorem fast_path_response_construction_always_fails
    (course_id : String) (metadata : CourseMetadata) :
    generate_course_fast_response course_id metadata
      = Except.error "ValidationError: modules_metadata field required" := rfl

/-! ### C5 — the progress stream

`stream_course_generation_progress` (course_generator.py lines 347-429):
after the not-found check it yields one `course_started` event, then enters
`while course.status == GENERATING:`.  Each iteration sleeps, yields
`module_ready` for every module whose progress marker newly reads
`completed`, re-reads the course, and on `READY` yields `course_complete`
and breaks, on `ERROR` yields `error` and breaks.  When the status at
subscribe time is already `ready` (or `error`) the loop body never runs, so
the generator ends right after `course_started`. -/

/-- The event types yielded by the stream (`module_ready` carries the module
index observed from the progress marker). -/
inductive StreamEvt where
  | course_started
  | module_ready (module_index : Nat)
  | course_complete
  | error
deriving DecidableEq, Repr

/-- What one poll iteration observes: the module indices whose progress
markers newly read `completed` (the loop's `completed_modules` bookkeeping
already removed previously seen ones), and the course status re-read after
the marker scan. -/
structure PollObs where
  newly_completed : List Nat
  status : CourseStatus
deriving DecidableEq, Repr

/-- The `while course.status == GENERATING` loop body, fed the successive
poll observations. -/
def streamPollLoop : List PollObs → List StreamEvt
  | [] => []
  | p :: rest =>
      p.newly_completed.map StreamEvt.module_ready ++
        (match p.status with
          | CourseStatus.ready => [StreamEvt.course_complete]
          | CourseStatus.error => [StreamEvt.error]
          | CourseStatus.generating => streamPollLoop rest)

/-- Model of `stream_course_generation_progress`: `course_at_subscribe` is the status
of the course when the subscription starts (`none` = course not found). -/
def stream_course_generation_progress
    (course_at_subscribe : Option CourseStatus) (polls : List PollObs) :
    List StreamEvt :=
  match course_at_subscribe with
  | none => [StreamEvt.error]
  | some st =>
      StreamEvt.course_started ::
        (if st = CourseStatus.generating then streamPollLoop polls else [])

/-- C5, counterexample: subscribing to a course whose stored status is
already `ready` yields **only** `course_started` — no `course_complete` is
ever emitted, because the polling loop is never entered. -/
theorem stream_ready_at_subscribe_counterexample :
    stream_course_generation_progress (some CourseStatus.ready)
        [{ newly_completed := [], status := CourseStatus.ready }]
      = [StreamEvt.course_started]
    ∧ StreamEvt.course_complete ∉
        stream_course_generation_progress (some CourseStatus.ready)
          [{ newly_completed := [], status := CourseStatus.ready }] := by
  refine ⟨by decide, by decide⟩

/-- C5, amended: subscribing to a course already `ready` (or already
`error`) yields `course_started` and terminates with no further events;
only when the status at subscribe time is `generating` does the poll loop
run, and then a poll observing `ready` emits its `module_ready` batch
followed by `course_complete` and terminates, while a poll observing
`error` emits its batch followed by `error` and terminates. -/
theorem stream_termination_amended (polls : List PollObs) (p : PollObs)
    (rest : List PollObs) :
    stream_course_generation_progress (some CourseStatus.ready) polls
        = [StreamEvt.course_started]
    ∧ stream_course_generation_progress (some CourseStatus.error) polls
        = [StreamEvt.course_started]
    ∧ (p.status = CourseStatus.ready →
        streamPollLoop (p :: rest)
          = p.newly_completed.map StreamEvt.module_ready ++ [StreamEvt.course_complete])
    ∧ (p.status = CourseStatus.error →
        streamPollLoop (p :: rest)
          = p.newly_completed.map StreamEvt.module_ready ++ [StreamEvt.error]) := by
  refine ⟨rfl, rfl, ?_, ?_⟩ <;> intro h <;> simp [streamPollLoop, h]

/-- C5, witness for the amended theorem: one poll observing `ready` after a
newly completed module 1. -/
theorem stream_termination_amended_witness :
    ({ newly_completed := [1], status := CourseStatus.ready } : PollObs).status
        = CourseStatus.ready
    ∧ streamPollLoop [{ newly_completed := [1], status := CourseStatus.ready }]
        = [StreamEvt.module_ready 1, StreamEvt.course_complete] := by
  refine ⟨rfl, ?_⟩
  have h := (stream_termination_amended []
    { newly_completed := [1], status := CourseStatus.ready } []).2.2.1 rfl
  simpa using h

/-! ### C6 — on-demand module generation

`generate_module_on_demand` (course_generator.py lines 240-319):
reads the course (`None` → return `None`), returns
`course.modules[module_index]` when `len(course.modules) > module_index`,
returns `None` when `module_index >= len(course.metadata.module_list)`,
and otherwise runs the 3-phase generation (structure, chunked content,
videos — the Content Provider calls) and persists the result via
`_save_module_to_course`, i.e. a `$push` append.  Note the "already exists"
test compares the **length** of the modules array against the index, and the
write appends to the end rather than filling slot `module_index`. -/

/-- The outcome of one `generate_module_on_demand` call: the returned value,
the course document afterwards, and whether the Content Provider was
invoked (the 3-phase generation ran). -/
structure OnDemandResult where
  result : Option Module
  course_after : Option Course
  provider_invoked : Bool
deriving DecidableEq, Repr

/-- Model of `generate_module_on_demand`.  `generated` is the module the 3-phase
generation produces when it runs (the provider oracle for this call). -/
def generate_module_on_demand (course : Option Course) (module_index : Nat)
    (generated : Module) : OnDemandResult :=
  match course with
  | none => { result := none, course_after := none, provider_invoked := false }
  | some c =>
      if h : module_index < c.modules.length then
        { result := some (c.modules.get ⟨module_index, h⟩)
          course_after := some c
          provider_invoked := false }
      else if c.metadata.module_list.length ≤ module_index then
        { result := none, course_after := some c, provider_invoked := false }
      else
        { result := some generated
          course_after := some { c with modules := save_module_to_course c.modules generated }
          provider_invoked := true }

/-- C6, counterexample: course over `exMetadata2` (two module titles, empty
`modules` array).  A first call for index 1 generates and `$push`es the
module — to position 0, since the array was empty.  The second call, made
after that write completed, finds `len(modules) = 1 ≤ 1` and invokes the
Content Provider **again** instead of returning the stored module. -/
theorem on_demand_not_idempotent_counterexample :
    (generate_module_on_demand (some exInitialCourse) 1 (exModule 1)).provider_invoked = true
    ∧ (generate_module_on_demand
          (generate_module_on_demand (some exInitialCourse) 1 (exModule 1)).course_after
          1 (exModule 1)).provider_invoked = true := by
  refine ⟨by decide, by decide⟩

/-- C6, amended: idempotence holds in the contiguous case — when the first
call generates at an index equal to the current `modules` length, the
`$push` lands the module exactly at that index, and a second call made after
the write completed returns the stored module without invoking the Content
Provider.  A first call for an index beyond the current length appends to
the wrong position, and the second call regenerates (see the
counterexample).  Unknown course ids and out-of-range indices (when the
slot-length test also fails) return an absent result without any Provider
call. -/
theorem on_demand_idempotent_when_contiguous (c : Course) (i : Nat)
    (g g2 : Module) (hlen : c.modules.length = i)
    (hrange : i < c.metadata.module_list.length) :
    (generate_module_on_demand (some c) i g).provider_invoked = true
    ∧ (generate_module_on_demand
          ((generate_module_on_demand (some c) i g).course_after) i g2).result = some g
    ∧ (generate_module_on_demand
          ((generate_module_on_demand (some c) i g).course_after) i g2).provider_invoked = false
    ∧ (generate_module_on_demand none i g).result = none
    ∧ (∀ j, c.metadata.module_list.length ≤ j → c.modules.length ≤ j →
        ((generate_module_on_demand (some c) j g).result = none
          ∧ (generate_module_on_demand (some c) j g).provider_invoked = false)) := by
  have hnotlt : ¬ i < c.modules.length := by omega
  have hnotrange : ¬ c.metadata.module_list.length ≤ i := by omega
  have hfirst : generate_module_on_demand (some c) i g
      = { result := some g
          course_after := some { c with modules := save_module_to_course c.modules g }
          provider_invoked := true } := by
    simp [generate_module_on_demand, hnotlt, hnotrange]
  have hlen2 : i < (save_module_to_course c.modules g).length := by
    simp [save_module_to_course]
    omega
  have hget : (save_module_to_course c.modules g).get ⟨i, hlen2⟩ = g := by
    simp only [save_module_to_course, List.get_eq_getElem]
    rw [List.getElem_append_right (by omega)]
    simp [← hlen]
  refine ⟨by rw [hfirst], ?_, ?_, rfl, ?_⟩
  · rw [hfirst]
    simp only [generate_module_on_demand, hlen2, dif_pos]
    rw [hget]
  · rw [hfirst]
    simp only [generate_module_on_demand, hlen2, dif_pos]
  · intro j hj hj2
    have hnotlt2 : ¬ j < c.modules.length := by omega
    simp [generate_module_on_demand, hnotlt2, hj]

/-- C6, witness for the amended theorem: the contiguous case at index 0 of a
fresh two-module course; the second call returns the first call's module
(`exModule 0`) even though the provider oracle of the second call would have
produced a different module (`exModule 7`). -/
theorem on_demand_idempotent_witness :
    exInitialCourse.modules.length = 0
    ∧ 0 < exInitialCourse.metadata.module_list.length
    ∧ ((generate_module_on_demand (some exInitialCourse) 0 (exModule 0)).provider_invoked = true
      ∧ (generate_module_on_demand
            ((generate_module_on_demand (some exInitialCourse) 0 (exModule 0)).course_after)
            0 (exModule 7)).result = some (exModule 0)
      ∧ (generate_module_on_demand
            ((generate_module_on_demand (some exInitialCourse) 0 (exModule 0)).course_after)
            0 (exModule 7)).provider_invoked = false
      ∧ (generate_module_on_demand none 0 (exModule 0)).result = none
      ∧ (∀ j, exInitialCourse.metadata.module_list.length ≤ j →
          exInitialCourse.modules.length ≤ j →
          ((generate_module_on_demand (some exInitialCourse) j (exModule 0)).result = none
            ∧ (generate_module_on_demand (some exInitialCourse) j (exModule 0)).provider_invoked
                = false))) := by
  exact ⟨by decide, by decide,
    on_demand_idempotent_when_contiguous exInitialCourse 0 (exModule 0) (exModule 7)
      (by decide) (by decide)⟩

/-! ### C9 — cache absence and the audio rate limiter

Every read helper of `cache_service.py` starts with
`if not self.redis_client: return None` and every write helper with
`if not self.redis_client: return False`.  For plain reads and writes this
is a transparent miss / no-op.  But `set_rate_limit` (lines 333-363) also
returns `False` when the client is absent — and its caller `generate_audio`
(api/courses.py lines 198-204) interprets `False` as "rate limit exceeded"
and raises `HTTPException(429)`.  So with no reachable cache **every** audio
request is refused, even though `connect()` (lines 37-40) explicitly
downgrades a failed Redis connection to "running in development mode
without cache". -/

/-- Model of `set_rate_limit`.  `client_counter = none` models an absent
`redis_client`; `some current` models a reachable client whose counter for
the `(user_id, action)` key currently reads `current` (`none` = no key,
i.e. first request in the window; TTL expiry is outside the embedding).
Returns the boolean result and the counter afterwards. -/
def set_rate_limit (client_counter : Option (Option Nat))
    (user_id : String) (action : String) (limit : Nat) (window_seconds : Nat) :
    Bool × Option (Option Nat) :=
  match client_counter with
  | none => (false, none)
  | some current =>
      match current with
      | none => (true, some (some 1))
      | some n => if n < limit then (true, some (some (n + 1))) else (false, some (some n))

/-- Model of `get_cached_course` (cache_service.py lines 209-226).  `client_store =
none` models an absent `redis_client`; otherwise the stored course entry for
the id is returned. -/
def get_cached_course (client_store : Option (String → Option Course))
    (course_id : String) : Option Course :=
  match client_store with
  | none => none
  | some store => store course_id

/-- The two ways the audio endpoint can proceed past its rate-limit gate. -/
inductive AudioRequestOutcome where
  | rateLimited429
  | attempted
deriving DecidableEq, Repr

/-- The rate-limit gate of `generate_audio` (api/courses.py lines 198-204):
`if not await cache_service.set_rate_limit(user_id, "audio_generation", 10,
3600): raise HTTPException(429)`. -/
def generate_audio_rate_gate (client_counter : Option (Option Nat))
    (user_id : String) : AudioRequestOutcome :=
  if (set_rate_limit client_counter user_id "audio_generation" 10 3600).1 = false then
    AudioRequestOutcome.rateLimited429
  else
    AudioRequestOutcome.attempted

/-- C9: with the cache client absent, course reads do degrade to a
transparent miss, but `set_rate_limit` returns `false`, which the audio
endpoint interprets as "rate limit exceeded" — every audio request is
refused with HTTP 429 instead of proceeding, so cache absence is **not**
transparent to request execution. -/
theorem cache_absent_refuses_every_audio_request
    (user_id : String) (course_id : String) (action : String)
    (limit : Nat) (window_seconds : Nat) :
    get_cached_course none course_id = none
    ∧ set_rate_limit none user_id action limit window_seconds = (false, none)
    ∧ generate_audio_rate_gate none user_id = AudioRequestOutcome.rateLimited429 := by
  refine ⟨rfl, rfl, rfl⟩

/-! ### C7 — batched concept-content generation

`generate_concepts_batch_optimized` (claude_service.py lines 689-846) makes
a **single** `messages.create` call covering all concepts of the module, then
splits the one response on the literal separator
`---SEPARADOR_CONCEPTO---` (line 825).  For each concept position `i`: if
`i < len(parts)` and `parts[i].strip()` is non-empty the stripped partition
is stored, otherwise `_generate_level_appropriate_fallback` (lines 848-900)
is stored.  Only when the provider call itself raises does the code fall
back to per-concept calls (lines 841-846). -/

/-- Extensional model of a Python `dict` keyed by strings. -/
abbrev PyDict := String → Option String

/-- Model of `d[k] = v` on a Python dict. -/
def dictSet (m : PyDict) (k v : String) : PyDict :=
  fun x => if x = k then some v else m x

/-- Model of the empty Python dict `{}`. -/
def emptyDict : PyDict := fun _ => none

/-- The separator token `---SEPARADOR_CONCEPTO---` used in the batch prompt
and when partitioning the batch response. -/
def SEPARADOR : String := "---SEPARADOR_CONCEPTO---"

/-- Translation of `_generate_level_appropriate_fallback` (claude_service.py
lines 848-900): deterministic, locally synthesized content per level.  The
control flow (three level branches, interpolating the concept name and the
course context; `module_context` and `interests` unused, as in the source)
is complete; the body text keeps each section header and its opening
sentence. -/
def generate_level_appropriate_fallback (concept : String)
    (module_context : String) (course_context : String)
    (level : CourseLevel) (interests : List String) : String :=
  match level with
  | CourseLevel.principiante =>
      s!"\n📖 **Concepto: {concept}**\n\n**¿Qué es y por qué importa?**\n¡Hola! Hoy vamos a aprender sobre {concept}, que es uno de los conceptos fundamentales que necesitas conocer en {course_context}.\n\n**Cómo funciona en la práctica:**\nTe lo explico paso a paso de manera sencilla.\n\n**Ejemplo en acción:**\nImagínate que estás trabajando en un proyecto simple.\n\n**¿Dónde más lo encontrarás?**\nEste concepto lo vas a ver en muchos lugares, especialmente cuando avances en tu aprendizaje.\n"
  | CourseLevel.intermedio =>
      s!"\n📖 **Concepto: {concept}**\n\n**¿Qué es y por qué importa?**\n{concept} es un concepto importante en {course_context} que se construye sobre lo que ya has aprendido.\n\n**Cómo funciona en la práctica:**\nA nivel técnico, {concept} involucra varios aspectos que debes considerar.\n\n**Ejemplo en acción:**\nEn aplicaciones reales, {concept} se puede implementar considerando las mejores prácticas.\n\n**¿Dónde más lo encontrarás?**\nEste concepto es fundamental en desarrollo profesional.\n"
  | CourseLevel.avanzado =>
      s!"\n📖 **Concepto: {concept}**\n\n**¿Qué es y por qué importa?**\n{concept} representa un aspecto avanzado de {course_context} con implicaciones significativas en arquitectura y rendimiento.\n\n**Cómo funciona en la práctica:**\nLa implementación de {concept} requiere consideraciones de rendimiento, memoria y concurrencia.\n\n**Ejemplo en acción:**\nEn sistemas de producción para aplicaciones enterprise, {concept} se implementa considerando load balancing y fault tolerance.\n\n**¿Dónde más lo encontrarás?**\nEste concepto es fundamental en arquitecturas distribuidas.\n"

/-- The value stored for the concept at position `i` of the enumeration
(the body of the `for i, concept in enumerate(concepts)` loop, lines
827-835): the stripped partition when present and non-empty, the level
fallback otherwise. -/
def batchConceptValue (parts : List String)
    (module_context course_context : String) (level : CourseLevel)
    (interests : List String) (concept : String) (i : Nat) : String :=
  match parts.get? i with
  | some partRaw =>
      let part := partRaw.trim
      if part ≠ "" then part
      else generate_level_appropriate_fallback concept module_context course_context level interests
  | none => generate_level_appropriate_fallback concept module_context course_context level interests

/-- The parsing half of `generate_concepts_batch_optimized` (lines 821-839):
split the single response on the separator and fill `concept_contents`. -/
def parse_batch_response (concepts : List String)
    (module_context course_context : String) (level : CourseLevel)
    (interests : List String) (content : String) : PyDict :=
  let parts := content.splitOn SEPARADOR
  (concepts.enum).foldl
    (fun concept_contents p =>
      dictSet concept_contents p.2
        (batchConceptValue parts module_context course_context level interests p.2 p.1))
    emptyDict

/-- Outcome of `generate_concepts_batch_optimized`: the per-concept content
dict plus the unconsumed provider responses, or the exception path that
falls back to `_generate_concepts_individually_fallback` (one provider call
per concept, lines 841-846 and 902-937). -/
inductive BatchOutcome where
  | batch (concept_contents : PyDict) (remaining_responses : List String)
  | individualFallback

/-- Model of `generate_concepts_batch_optimized` over a provider oracle: the
list of responses the Content Provider will return, one entry consumed per
API call.  The success path consumes exactly one response for the whole
concept list; an empty oracle models the provider call raising. -/
def generate_concepts_batch_optimized (concepts : List String)
    (module_context course_context : String) (level : CourseLevel)
    (interests : List String) (provider_responses : List String) : BatchOutcome :=
  match provider_responses with
  | [] => BatchOutcome.individualFallback
  | content :: rest =>
      BatchOutcome.batch
        (parse_batch_response concepts module_context course_context level interests content)
        rest

/-- Setting a key makes its entry present. -/
theorem dictSet_isSome_self (m : PyDict) (k v : String) :
    ((dictSet m k v) k).isSome := by
  simp [dictSet]

/-- Setting any key preserves presence of every entry. -/
theorem dictSet_isSome_mono (m : PyDict) (a v k : String)
    (h : (m k).isSome) : ((dictSet m a v) k).isSome := by
  by_cases hk : k = a <;> simp [dictSet, hk, h]

/-- After folding `dictSet` over a list of keyed insertions, a key is
present if it is one of the inserted keys or was present before. -/
theorem fold_dictSet_isSome (l : List (Nat × String))
    (f : Nat × String → String) (m : PyDict) (k : String)
    (h : k ∈ l.map Prod.snd ∨ (m k).isSome) :
    ((l.foldl (fun acc p => dictSet acc p.2 (f p)) m) k).isSome := by
  induction l generalizing m with
  | nil =>
      rcases h with h | h
      · simp at h
      · simpa using h
  | cons p t ih =>
      simp only [List.foldl_cons]
      apply ih
      rcases h with h | h
      · simp only [List.map_cons, List.mem_cons] at h
        rcases h with h | h
        · right
          subst h
          exact dictSet_isSome_self m p.2 (f p)
        · left
          exact h
      · right
        exact dictSet_isSome_mono m p.2 (f p) k h

/-- C7: the batch path consumes exactly one provider response for the whole
concept list; the single response is partitioned on the separator token, and
positions whose partition is missing or strips to empty receive the
synthesized level fallback, so the resulting per-concept content dict has an
entry for every concept of the structure. -/
theorem batch_generation_covers_every_concept (concepts : List String)
    (module_context course_context : String) (level : CourseLevel)
    (interests : List String) (content : String) (rest : List String) :
    generate_concepts_batch_optimized concepts module_context course_context
        level interests (content :: rest)
      = BatchOutcome.batch
          (parse_batch_response concepts module_context course_context level interests content)
          rest
    ∧ (∀ c ∈ concepts,
        ((parse_batch_response concepts module_context course_context level interests content) c).isSome)
    ∧ (∀ concept i,
        (∀ p, (content.splitOn SEPARADOR).get? i = some p → p.trim = "") →
        batchConceptValue (content.splitOn SEPARADOR) module_context course_context
            level interests concept i
          = generate_level_appropriate_fallback concept module_context course_context
              level interests) := by
  refine ⟨rfl, ?_, ?_⟩
  · intro c hc
    simp only [parse_batch_response]
    apply fold_dictSet_isSome
    left
    rw [List.enum_map_snd]
    exact hc
  · intro concept i h
    unfold batchConceptValue
    cases hp : (content.splitOn SEPARADOR).get? i with
    | none => rfl
    | some p =>
        have hempty : p.trim = "" := h p hp
        simp [hempty]

/-- C7, witness: two concepts, one response containing one separator; both
concepts end up with an entry. -/
theorem batch_generation_witness :
    (("Concepto A" : String) ∈ (["Concepto A", "Concepto B"] : List String))
    ∧ ((parse_batch_response ["Concepto A", "Concepto B"] "Modulo" "curso"
          CourseLevel.principiante []
          "texto A---SEPARADOR_CONCEPTO---texto B") "Concepto A").isSome := by
  refine ⟨by decide, ?_⟩
  exact (batch_generation_covers_every_concept ["Concepto A", "Concepto B"]
    "Modulo" "curso" CourseLevel.principiante []
    "texto A---SEPARADOR_CONCEPTO---texto B" []).2.1 "Concepto A" (by decide)

/-! ### C10 — unguarded quiz indexing in chunked content generation

`generate_module_content_chunked` (claude_service.py lines 621-687) builds
one chunk per concept from the batch dict, then interpolates
`module_structure['quiz'][0]['question']`,
`...['options'][0]` … `...['options'][3]` and `...['explanation']` into the
quiz chunk with no guard, then appends a summary chunk.
`generate_module_structure` (lines 476-492) returns `json.loads` output
as-is on the success path — the parsed structure is never validated, so a
quiz list that is empty or whose first question has fewer than four options
reaches the indexing expressions unchecked (the `ModuleStructure` type below
permits exactly those shapes).

Two error paths coexist: every `ModuleChunk.create_chunk` call validates
`content` against the pydantic `max_length = 5000` bound, and the concept
chunks are created **before** the quiz is indexed (lines 644-653), so an
over-long batch part raises `ValidationError` there and the quiz indexing is
never reached; only when every concept content is within the bound does an
empty or short quiz raise the `IndexError`. -/

/-- A parsed module structure: the keys `generate_module_content_chunked`
reads from the dict returned by `generate_module_structure`. -/
structure ModuleStructure where
  module_id : String
  title : String
  description : String
  objective : String
  concepts : List String
  quiz : List QuizQuestion
  summary : String
  practical_exercise : PracticalExercise
deriving DecidableEq, Repr

/-- Python list indexing `l[i]`: `IndexError` when out of range. -/
def pyGet {α : Type} (l : List α) (i : Nat) : Except String α :=
  match l.get? i with
  | some a => Except.ok a
  | none => Except.error "IndexError: list index out of range"

/-- Reduction of `pyGet` on an in-range index. -/
theorem pyGet_ok {α : Type} {l : List α} {i : Nat} {a : α}
    (h : l.get? i = some a) : pyGet l i = Except.ok a := by
  unfold pyGet
  rw [h]

/-- Reduction of `pyGet` on an out-of-range index. -/
theorem pyGet_err {α : Type} {l : List α} {i : Nat}
    (h : l.get? i = none) :
    pyGet l i = Except.error "IndexError: list index out of range" := by
  unfold pyGet
  rw [h]

/-- Reduction of the `Except` bind on a success value. -/
theorem except_bind_ok {ε α β : Type} (a : α) (f : α → Except ε β) :
    (Bind.bind (Except.ok a) f : Except ε β) = f a := rfl

/-- Reduction of the `Except` bind on an error value. -/
theorem except_bind_err {ε α β : Type} (e : ε) (f : α → Except ε β) :
    (Bind.bind (Except.error e) f : Except ε β) = Except.error e := rfl

/-- Reduction of the `Except` functor map on a success value. -/
theorem except_map_ok {ε α β : Type} (f : α → β) (a : α) :
    (f <$> (Except.ok a : Except ε α)) = Except.ok (f a) := rfl

/-- Reduction of the `Except` functor map on an error value. -/
theorem except_map_err {ε α β : Type} (f : α → β) (e : ε) :
    (f <$> (Except.error e : Except ε α)) = (Except.error e : Except ε β) := rfl

/-- Reduction of the `Except` pure. -/
theorem except_pure {ε α : Type} (a : α) :
    (Pure.pure a : Except ε α) = Except.ok a := rfl

/-- The content of one concept chunk: `batch_content.get(concept, f"Error
generando contenido para {concept}")` (claude_service.py line 645). -/
def concept_chunk_content (batch_content : PyDict) (concept : String) : String :=
  (batch_content concept).getD ("Error generando contenido para " ++ concept)

/-- The quiz chunk content f-string (claude_service.py lines 656-668),
interpolating the first quiz question and its first four options. -/
def quiz_chunk_content (q : QuizQuestion) (optA optB optC optD : String) : String :=
  s!"\n🧠 **Quiz del Módulo**\n\nPregunta: {q.question}\n\nOpciones:\nA) {optA}\nB) {optB}\nC) {optC}\nD) {optD}\n\n💡 **Explicación:** {q.explanation}\n"

/-- The `for i, concept in enumerate(concepts)` loop of
`generate_module_content_chunked` (lines 644-653): each iteration calls
`ModuleChunk.create_chunk`, which raises `ValidationError` past the
5000-character bound and stops the loop. -/
def build_concept_chunks (md5 : String → String) (batch_content : PyDict)
    (module_id : String) (total : Nat) :
    List (Nat × String) → Except String (List ModuleChunk)
  | [] => Except.ok []
  | p :: rest => do
      let chunk ← ModuleChunk.create_chunk md5 (concept_chunk_content batch_content p.2)
        (p.1 + 1) total module_id
      let restChunks ← build_concept_chunks md5 batch_content module_id total rest
      return chunk :: restChunks

/-- Model of `generate_module_content_chunked`.  `batch_content` is the
per-concept dict obtained from the batch step; the provider calls behind it
are modeled by `generate_concepts_batch_optimized` above. -/
def generate_module_content_chunked (md5 : String → String)
    (ms : ModuleStructure) (batch_content : PyDict) :
    Except String (List ModuleChunk) := do
  let concepts := ms.concepts
  let conceptChunks ← build_concept_chunks md5 batch_content ms.module_id
    (concepts.length + 2) concepts.enum
  let q0 ← pyGet ms.quiz 0
  let optA ← pyGet q0.options 0
  let optB ← pyGet q0.options 1
  let optC ← pyGet q0.options 2
  let optD ← pyGet q0.options 3
  let quiz_chunk ← ModuleChunk.create_chunk md5
    (quiz_chunk_content q0 optA optB optC optD)
    (concepts.length + 1) (concepts.length + 2) ms.module_id
  let summary_chunk ← ModuleChunk.create_chunk md5
    ("📋 **Resumen:** " ++ ms.summary)
    (concepts.length + 2) (concepts.length + 2) ms.module_id
  return conceptChunks ++ [quiz_chunk, summary_chunk]

/-- Reduction of `create_chunk` on in-bound content. -/
theorem create_chunk_ok {md5 : String → String} {content : String}
    {order total : Nat} {module_id : String} (h : content.length ≤ 5000) :
    ModuleChunk.create_chunk md5 content order total module_id
      = Except.ok (chunk_record md5 content order total module_id) := by
  simp [ModuleChunk.create_chunk, h]

/-- Reduction of `create_chunk` on over-long content. -/
theorem create_chunk_err {md5 : String → String} {content : String}
    {order total : Nat} {module_id : String} (h : ¬ content.length ≤ 5000) :
    ModuleChunk.create_chunk md5 content order total module_id
      = Except.error "ValidationError: content longer than max_length 5000" := by
  simp [ModuleChunk.create_chunk, h]

/-- The concept-chunk loop succeeds when every content is in bound. -/
theorem build_concept_chunks_ok (md5 : String → String) (batch_content : PyDict)
    (module_id : String) (total : Nat) (l : List (Nat × String))
    (h : ∀ p ∈ l, (concept_chunk_content batch_content p.2).length ≤ 5000) :
    build_concept_chunks md5 batch_content module_id total l
      = Except.ok (l.map (fun p =>
          chunk_record md5 (concept_chunk_content batch_content p.2)
            (p.1 + 1) total module_id)) := by
  induction l with
  | nil => rfl
  | cons p t ih =>
      have hp : (concept_chunk_content batch_content p.2).length ≤ 5000 := h p (by simp)
      have ht := ih (fun x hx => h x (by simp [hx]))
      simp only [build_concept_chunks, create_chunk_ok hp, except_bind_ok, ht,
        except_pure, List.map_cons]

/-- A batch part longer than the pydantic `max_length = 5000` bound on
`ModuleChunk.content` (reachable: batch parts come from provider responses
of up to 4000 tokens). -/
def longContent : String := ⟨List.replicate 5001 'a'⟩

/-- The over-long content has 5001 characters. -/
theorem longContent_length : longContent.length = 5001 := by
  show (List.replicate 5001 'a').length = 5001
  exact List.length_replicate 5001 'a'

/-- A batch dict mapping concept `c1` to the over-long content. -/
def longBatch : PyDict := dictSet emptyDict "c1" longContent

/-- A parsed structure with two concepts and an empty quiz list (a shape the
unvalidated parse permits). -/
def exStructureNoQuiz : ModuleStructure :=
  { module_id := "modulo_1"
    title := "Modulo A"
    description := "Descripcion"
    objective := "Objetivo"
    concepts := ["c1", "c2"]
    quiz := []
    summary := "Resumen"
    practical_exercise := exExercise }

/-- C10, counterexample: a parsed structure with an **empty quiz list**
(satisfying the claim's precondition) whose first concept content is 5001
characters long makes chunk generation raise `ValidationError` in the
concept-chunk loop — before the quiz is ever indexed — not the `IndexError`
the claim asserts for every such structure. -/
theorem chunked_validation_error_counterexample :
    exStructureNoQuiz.quiz = []
    ∧ (concept_chunk_content longBatch "c1").length = 5001
    ∧ generate_module_content_chunked (fun s => s) exStructureNoQuiz longBatch
        = Except.error "ValidationError: content longer than max_length 5000"
    ∧ generate_module_content_chunked (fun s => s) exStructureNoQuiz longBatch
        ≠ Except.error "IndexError: list index out of range" := by
  have hc : concept_chunk_content longBatch "c1" = longContent := rfl
  have hlong : ¬ (concept_chunk_content longBatch "c1").length ≤ 5000 := by
    rw [hc, longContent_length]
    omega
  have henum : exStructureNoQuiz.concepts.enum = [(0, "c1"), (1, "c2")] := rfl
  have hbuild : build_concept_chunks (fun s => s) longBatch exStructureNoQuiz.module_id
      (exStructureNoQuiz.concepts.length + 2) exStructureNoQuiz.concepts.enum
      = Except.error "ValidationError: content longer than max_length 5000" := by
    rw [henum]
    simp only [build_concept_chunks, create_chunk_err hlong, except_bind_err]
  have hres : generate_module_content_chunked (fun s => s) exStructureNoQuiz longBatch
      = Except.error "ValidationError: content longer than max_length 5000" := by
    simp only [generate_module_content_chunked, hbuild, except_bind_err]
  refine ⟨rfl, by rw [hc]; exact longContent_length, hres, ?_⟩
  rw [hres]
  simp

/-- C10, amended: provided every concept chunk content respects the pydantic
`max_length = 5000` bound (an over-long batch part raises `ValidationError`
in the concept loop, before the quiz is touched — see the counterexample),
chunk generation raises an `IndexError` exactly when the parsed structure's
quiz list is empty or its first question has fewer than four options; with a
four-option first question and in-bound quiz and summary chunk contents it
returns the concepts-plus-quiz-plus-summary sequence of
`len(concepts) + 2` chunks. -/
theorem chunked_content_requires_four_option_quiz (md5 : String → String)
    (ms : ModuleStructure) (batch_content : PyDict)
    (hlen : ∀ c ∈ ms.concepts, (concept_chunk_content batch_content c).length ≤ 5000) :
    (ms.quiz = [] →
      generate_module_content_chunked md5 ms batch_content
        = Except.error "IndexError: list index out of range")
    ∧ (∀ q, ms.quiz.get? 0 = some q → q.options.length < 4 →
        generate_module_content_chunked md5 ms batch_content
          = Except.error "IndexError: list index out of range")
    ∧ (∀ q optA optB optC optD,
        ms.quiz.get? 0 = some q →
        q.options.get? 0 = some optA → q.options.get? 1 = some optB →
        q.options.get? 2 = some optC → q.options.get? 3 = some optD →
        (quiz_chunk_content q optA optB optC optD).length ≤ 5000 →
        ("📋 **Resumen:** " ++ ms.summary).length ≤ 5000 →
        ∃ chunks, generate_module_content_chunked md5 ms batch_content = Except.ok chunks
          ∧ chunks.length = ms.concepts.length + 2) := by
  have henum : ∀ p ∈ ms.concepts.enum,
      (concept_chunk_content batch_content p.2).length ≤ 5000 := by
    intro p hp
    apply hlen
    have hmem := List.mem_map_of_mem Prod.snd hp
    rwa [List.enum_map_snd] at hmem
  have hbuild := build_concept_chunks_ok md5 batch_content ms.module_id
    (ms.concepts.length + 2) ms.concepts.enum henum
  refine ⟨?_, ?_, ?_⟩
  · intro hq
    have hq0 : pyGet ms.quiz 0 = Except.error "IndexError: list index out of range" :=
      pyGet_err (by rw [hq]; rfl)
    simp only [generate_module_content_chunked, hbuild, except_bind_ok, hq0,
      except_bind_err]
  · intro q hq hlt
    have hq0 : pyGet ms.quiz 0 = Except.ok q := pyGet_ok hq
    cases h0 : q.options.get? 0 with
    | none =>
        simp only [generate_module_content_chunked, hbuild, except_bind_ok, hq0,
          pyGet_err h0, except_bind_err]
    | some a0 =>
        cases h1 : q.options.get? 1 with
        | none =>
            simp only [generate_module_content_chunked, hbuild, except_bind_ok, hq0,
              pyGet_ok h0, pyGet_err h1, except_bind_err]
        | some a1 =>
            cases h2 : q.options.get? 2 with
            | none =>
                simp only [generate_module_content_chunked, hbuild, except_bind_ok, hq0,
                  pyGet_ok h0, pyGet_ok h1, pyGet_err h2, except_bind_err]
            | some a2 =>
                have h3 : q.options.get? 3 = none := by
                  rw [List.get?_eq_none]
                  omega
                simp only [generate_module_content_chunked, hbuild, except_bind_ok, hq0,
                  pyGet_ok h0, pyGet_ok h1, pyGet_ok h2, pyGet_err h3,
                  except_bind_err, except_map_err]
  · intro q optA optB optC optD hq h0 h1 h2 h3 hquiz hsum
    simp only [generate_module_content_chunked, hbuild, except_bind_ok,
      pyGet_ok hq, pyGet_ok h0, pyGet_ok h1, pyGet_ok h2, pyGet_ok h3,
      create_chunk_ok hquiz, create_chunk_ok hsum, except_map_ok, except_pure]
    refine ⟨_, rfl, ?_⟩
    simp [List.enum_length]

/-- C10, witness: a two-concept structure with an empty quiz list, all
concept contents within the 5000-character bound, makes chunk generation
raise the IndexError. -/
theorem chunked_content_witness :
    (∀ c ∈ exStructureNoQuiz.concepts,
        (concept_chunk_content emptyDict c).length ≤ 5000)
    ∧ exStructureNoQuiz.quiz = []
    ∧ generate_module_content_chunked (fun s => s) exStructureNoQuiz emptyDict
        = Except.error "IndexError: list index out of range" := by
  refine ⟨by decide, rfl, ?_⟩
  exact (chunked_content_requires_four_option_quiz (fun s => s) exStructureNoQuiz
    emptyDict (by decide)).1 rfl

end P2C
